import Mathlib

/-!
Shallow embedding of `pman/openshiftmgr.py` (OpenShiftManager): the manifest
builder `schedule_job`, the status resolver `get_job_info`, log aggregation
`get_job_logs` / `get_pod_log`, and job removal `remove_job`, together with
the external collaborators they call (Python `shlex.split`, `int()`, and the
Kubernetes namespaced-object API) modelled explicitly.
-/

namespace Pman

/-- Convenience characters, named to keep literals unambiguous. -/
def squoteChar : Char := Char.ofNat 39

def dquoteChar : Char := Char.ofNat 34

def backslashChar : Char := Char.ofNat 92

/-- The single-quote character as a one-character string. -/
def sq : String := String.singleton squoteChar

/-- Python `ValueError`; the spec calls this class of failures `ValidationError`
(malformed numeric input, unbalanced command quoting). -/
inductive PmanErr
  | valueError (msg : String)
deriving DecidableEq, Repr

/-- Lexer state of CPython `shlex` in posix mode with `whitespace_split=True`:
start-of-token whitespace, inside a word, inside a quote, or after an escape
character (`fromDq` records whether the escape was seen inside double quotes,
CPython's `escapedstate`). -/
inductive SState
  | space
  | word
  | inQuote (q : Char)
  | esc (fromDq : Bool)
deriving DecidableEq, Repr

/-- `shlex` whitespace: space, tab, carriage return, newline. -/
def isShWhitespace (c : Char) : Bool :=
  c = ' ' || c = Char.ofNat 9 || c = Char.ofNat 13 || c = Char.ofNat 10

/-- One pass of CPython `shlex.read_token` (posix mode, `whitespace_split=True`,
no punctuation chars, no comments), emitting tokens at whitespace boundaries.
`tok` is the token built so far, `quoted` CPython's `quoted` flag, `acc` the
emitted tokens in reverse. Unbalanced quoting raises `ValueError`. -/
def shlexAux : List Char → SState → String → Bool → List String →
    Except PmanErr (List String)
  | [], .space, _, _, acc => .ok acc.reverse
  | [], .word, tok, quoted, acc =>
      if tok ≠ "" ∨ quoted then .ok (tok :: acc).reverse else .ok acc.reverse
  | [], .inQuote _, _, _, _ => .error (.valueError "No closing quotation")
  | [], .esc _, _, _, _ => .error (.valueError "No escaped character")
  | c :: rest, .space, tok, quoted, acc =>
      if isShWhitespace c then shlexAux rest .space tok quoted acc
      else if c = backslashChar then shlexAux rest (.esc false) tok quoted acc
      else if c = squoteChar ∨ c = dquoteChar then
        shlexAux rest (.inQuote c) tok quoted acc
      else shlexAux rest .word (tok.push c) quoted acc
  | c :: rest, .word, tok, quoted, acc =>
      if isShWhitespace c then
        if tok ≠ "" ∨ quoted then shlexAux rest .space "" false (tok :: acc)
        else shlexAux rest .space "" false acc
      else if c = backslashChar then shlexAux rest (.esc false) tok quoted acc
      else if c = squoteChar ∨ c = dquoteChar then
        shlexAux rest (.inQuote c) tok quoted acc
      else shlexAux rest .word (tok.push c) quoted acc
  | c :: rest, .inQuote q, tok, _, acc =>
      if c = q then shlexAux rest .word tok true acc
      else if q = dquoteChar ∧ c = backslashChar then
        shlexAux rest (.esc true) tok true acc
      else shlexAux rest (.inQuote q) (tok.push c) true acc
  | c :: rest, .esc fromDq, tok, quoted, acc =>
      if fromDq then
        if c ≠ backslashChar ∧ c ≠ dquoteChar then
          shlexAux rest (.inQuote dquoteChar) ((tok.push backslashChar).push c)
            quoted acc
        else shlexAux rest (.inQuote dquoteChar) (tok.push c) quoted acc
      else shlexAux rest .word (tok.push c) quoted acc

/-- Python `shlex.split(s)` (posix rules): shell-style tokenization. -/
def shlexSplit (s : String) : Except PmanErr (List String) :=
  shlexAux s.data .space "" false []

/-- Fuel-indexed scan of Python `str.replace`: at each position, if `old` is
a prefix, emit `new` and skip past the occurrence, else keep the character;
non-overlapping, left to right. The fuel starts at the string length and
dominates it throughout. -/
def replaceFuel : Nat → List Char → List Char → List Char → List Char
  | 0, s, _, _ => s
  | _ + 1, [], _, _ => []
  | fuel + 1, c :: rest, old, new =>
      if old.isPrefixOf (c :: rest) then
        new ++ replaceFuel fuel (List.drop old.length (c :: rest)) old new
      else c :: replaceFuel fuel rest old new

/-- Python `s.replace(old, new)`: replaces every non-overlapping occurrence
of `old`, scanning left to right (for empty `old`, CPython inserts `new`
before every character and at the end). -/
def pyReplace (s old new : String) : String :=
  if old.data = [] then
    ⟨new.data ++ (s.data.map (fun c => c :: new.data)).flatten⟩
  else ⟨replaceFuel s.data.length s.data old.data new.data⟩

/-- Whitespace stripped by Python `int()` around a numeric literal. -/
def isPyWhitespace (c : Char) : Bool :=
  c = ' ' || c = Char.ofNat 9 || c = Char.ofNat 10 || c = Char.ofNat 11 ||
    c = Char.ofNat 12 || c = Char.ofNat 13

/-- Decimal digit run to a natural number; `none` on the empty run or on any
non-digit character. -/
def digitsToNatAux : List Char → Nat → Option Nat
  | [], acc => some acc
  | c :: rest, acc =>
      if c.isDigit then digitsToNatAux rest (acc * 10 + (c.toNat - 48))
      else none

def digitsToNat? : List Char → Option Nat
  | [] => none
  | l => digitsToNatAux l 0

/-- Python `int(s)` on a string: optional surrounding whitespace, optional
sign, then decimal digits; anything else raises `ValueError`. (Underscore
digit grouping, accepted by CPython, is not modelled; no input here uses it.) -/
def pyInt? (s : String) : Option Int :=
  let t := (s.data.dropWhile isPyWhitespace).reverse.dropWhile isPyWhitespace
    |>.reverse
  match t with
  | [] => none
  | c :: rest =>
      if c = '-' then (digitsToNat? rest).map (fun n => -(n : Int))
      else if c = '+' then (digitsToNat? rest).map (fun n => (n : Int))
      else (digitsToNat? (c :: rest)).map (fun n => (n : Int))

/-- A value stored in the manifest's resource dicts: the CPU/memory limits are
strings, the GPU limit is stored as a Python int. -/
inductive PyVal
  | str (s : String)
  | int (n : Int)
deriving DecidableEq, Repr

structure EnvVar where
  name : String
  value : String
deriving DecidableEq, Repr

structure VolumeMount where
  mountPath : String
  name : String
deriving DecidableEq, Repr

structure SeLinuxOptions where
  type : String
deriving DecidableEq, Repr

structure Capabilities where
  drop : List String
deriving DecidableEq, Repr

structure SecurityContext where
  allowPrivilegeEscalation : Bool
  capabilities : Capabilities
  seLinuxOptions : SeLinuxOptions
deriving DecidableEq, Repr

/-- The `resources` block of a container: insertion-ordered dicts mapping
resource keys to values. -/
structure Resources where
  limits : List (String × PyVal)
  requests : List (String × PyVal)
deriving DecidableEq, Repr

structure Container where
  env : List EnvVar
  name : String
  image : String
  imagePullSecrets : String
  imagePullPolicy : String
  command : List String
  resources : Resources
  volumeMounts : List VolumeMount
  securityContext : Option SecurityContext
deriving DecidableEq, Repr

/-- An entry of the `volumes` list at the bottom of `d_job` (the last entry in
the source is a mount-shaped dict, kept as written). -/
inductive Volume
  | pvc (name claimName : String)
  | secret (name secretName : String)
  | mount (mountPath name : String)
deriving DecidableEq, Repr

structure PodSpec where
  restartPolicy : String
  containers : List Container
  volumes : List Volume
deriving DecidableEq, Repr

structure PodTemplate where
  labels : List (String × String)
  name : String
  spec : PodSpec
deriving DecidableEq, Repr

structure JobSpec where
  ttlSecondsAfterFinished : Nat
  parallelism : String
  completions : String
  activeDeadlineSeconds : Nat
  template : PodTemplate
deriving DecidableEq, Repr

/-- The `d_job` manifest dict built by `schedule_job`. -/
structure DJob where
  apiVersion : String
  kind : String
  metadataName : String
  spec : JobSpec
deriving DecidableEq, Repr

/-- The `resource_dict` argument of `schedule_job`. Worker count and CPU and
memory limits are only ever passed through Python `str()`, so they are carried
as naturals; the gpu value is carried as the string `str()` produces from the
caller's raw value, because the code later applies `int()` to it. -/
structure ResourceDict where
  number_of_workers : Nat
  memory_limit : Nat
  cpu_limit : Nat
  gpu_limit : String
deriving DecidableEq, Repr

/-- Operations `schedule_job` performs on its way to the manifest, in program
order: the `/share` substitution (line 41), the `shlex.split` tokenization
(line 88, evaluated while `d_job` is built), and the `int(gpu_limit)` cast
(line 111). Recorded so that claims about *when* an error is raised relative
to these operations can be stated. -/
inductive BuildEvent
  | shareSubstituted
  | commandTokenized
  | gpuCastAttempted
deriving DecidableEq, Repr

/-- `schedule_job` of `openshiftmgr.py` (lines 37-153), stopping just before
the `create_namespaced_job` API call: builds the `d_job` manifest from the
image, command, job name, resource dict and shared directory. Returns the
ordered list of `BuildEvent`s performed together with either the manifest or
the first Python `ValueError` raised (`shlex` unbalanced quoting, or `int()`
on a non-numeric gpu value). -/
def schedule_job_events (image command name : String) (resource_dict : ResourceDict)
    (share_dir : String) : List BuildEvent × Except PmanErr DJob :=
  let command := pyReplace command "/share" share_dir
  let number_of_workers := toString resource_dict.number_of_workers
  let memory_limit := toString resource_dict.memory_limit ++ "Mi"
  let cpu_limit := toString resource_dict.cpu_limit ++ "m"
  let gpu_limit := resource_dict.gpu_limit
  match shlexSplit command with
  | .error e => ([.shareSubstituted], .error e)
  | .ok cmdTokens =>
    let events := [BuildEvent.shareSubstituted, BuildEvent.commandTokenized]
    let container0 : Container :=
      { env := [⟨"NUMBER_OF_WORKERS", number_of_workers⟩,
                ⟨"CPU_LIMIT", cpu_limit⟩,
                ⟨"MEMORY_LIMIT", memory_limit⟩]
        name := name
        image := image
        imagePullSecrets := "regcred"
        imagePullPolicy := "IfNotPresent"
        command := cmdTokens
        resources :=
          { limits := [("memory", .str memory_limit), ("cpu", .str cpu_limit)]
            requests := [("memory", .str "150Mi"), ("cpu", .str "250m")] }
        volumeMounts := [⟨"/tmp/", "gluster-vol1"⟩]
        securityContext := none }
    let events := events ++ [BuildEvent.gpuCastAttempted]
    match pyInt? gpu_limit with
    | none =>
        (events, .error (.valueError
          ("invalid literal for int() with base 10: " ++ gpu_limit)))
    | some g =>
      let container0 :=
        if g > 0 then
          { container0 with
              resources := { limits := [("nvidia.com/gpu", .int g)], requests := [] }
              securityContext := some
                { allowPrivilegeEscalation := false
                  capabilities := ⟨["ALL"]⟩
                  seLinuxOptions := ⟨"nvidia_container_t"⟩ } }
        else container0
      let d_job : DJob :=
        { apiVersion := "batch/v1"
          kind := "Job"
          metadataName := name
          spec :=
            { ttlSecondsAfterFinished := 20
              parallelism := number_of_workers
              completions := number_of_workers
              activeDeadlineSeconds := 36000
              template :=
                { labels := [("job-origin", "pman")]
                  name := name
                  spec :=
                    { restartPolicy := "Never"
                      containers := [container0]
                      volumes :=
                        [.pvc "gluster-vol1" "gluster1",
                         .secret "swift-credentials" "swift-credentials",
                         .secret "kubecfg-volume" "kubecfg",
                         .mount "/local" "local-volume"] } } } }
      (events, .ok d_job)

/-- The manifest (or error) built by `schedule_job`, without the event trace. -/
def schedule_job (image command name : String) (resource_dict : ResourceDict)
    (share_dir : String) : Except PmanErr DJob :=
  (schedule_job_events image command name resource_dict share_dir).2

/-- The first (primary) container of a built manifest, if the build succeeded. -/
def builtPrimary : Except PmanErr DJob → Option Container
  | .ok m => m.spec.template.spec.containers.head?
  | .error _ => none

/-- Modelled from the spec: `JobStatus` is imported from `.abstractmgr`, which
is not part of the packaged sources; the spec fixes the enum as
NotStarted, Started, FinishedSuccessfully, FinishedWithError, Undefined,
matching the members `openshiftmgr.py` uses. -/
inductive JobStatus
  | notstarted
  | started
  | finishedSuccessfully
  | finishedWithError
  | undefined
deriving DecidableEq, Repr

/-- Modelled from the spec: `TimeStamp` (from `.abstractmgr`) wraps an
ISO-8601 string, or the empty string when no completion time exists. -/
structure TimeStamp where
  val : String
deriving DecidableEq, Repr

/-- Modelled from the spec: `JobInfo` (from `.abstractmgr`) with the fields
`get_job_info` fills: name, image, cmd, timestamp, message, status. The
message is optional because a Kubernetes condition's message may be absent. -/
structure JobInfo where
  name : String
  image : String
  cmd : String
  timestamp : TimeStamp
  message : Option String
  status : JobStatus
deriving DecidableEq, Repr

/-- A Kubernetes job condition as the Python client exposes it: a type, a
status carried as the string "True" or "False" or "Unknown", and an optional
message. -/
structure JobCondition where
  type : String
  status : String
  message : Option String
deriving DecidableEq, Repr

/-- A Python `datetime`, reduced to the one observation `get_job_info` makes
of it: its `isoformat()` string. A `datetime` object is always truthy. -/
structure KDateTime where
  isoformat : String
deriving DecidableEq, Repr

/-- The `job.status` snapshot read by `get_job_info`: condition list,
failed-pod count, succeeded-pod count, completion timestamp, active-pod
count, each absent (`None`) or present. -/
structure K8sJobStatus where
  conditions : Option (List JobCondition)
  failed : Option Nat
  succeeded : Option Nat
  completion_time : Option KDateTime
  active : Option Nat
deriving DecidableEq, Repr

/-- The slice of a fetched Kubernetes job object that `get_job_info` reads:
`metadata.name`, `spec.template.spec.containers`, and `status`. -/
structure K8sContainerInfo where
  image : String
  command : List String
deriving DecidableEq, Repr

structure K8sJob where
  name : String
  containers : List K8sContainerInfo
  status : K8sJobStatus
deriving DecidableEq, Repr

/-- Python truthiness of an optional count: `None` and `0` are falsy. -/
def optNatTruthy : Option Nat → Bool
  | none => false
  | some n => n != 0

/-- Python truthiness of an optional list: `None` and `[]` are falsy. -/
def optListTruthy {α : Type} : Option (List α) → Bool
  | none => false
  | some l => !l.isEmpty

/-- The test of the condition loop in `get_job_info`:
`condition.type == 'Failed' and condition.status == 'True'`. -/
def failedCond (c : JobCondition) : Bool :=
  c.type == "Failed" && c.status == "True"

/-- The `for condition in conditions: ... break` loop of `get_job_info`
(lines 196-200): the first condition of type "Failed" with status "True",
if any. -/
def scan_conditions : List JobCondition → Option JobCondition
  | [] => none
  | c :: rest => if failedCond c then some c else scan_conditions rest

/-- `get_job_info` of `openshiftmgr.py` (lines 183-219): resolves the status
and message from the job's status snapshot, then assembles the `JobInfo`.
Returns `none` exactly when the container list is empty, where the Python
code would raise `IndexError` on `containers[0]`. -/
def get_job_info (job : K8sJob) : Option JobInfo :=
  let conditions := job.status.conditions
  let failed := job.status.failed
  let succeeded := job.status.succeeded
  let completion_time := job.status.completion_time
  let st0 : JobStatus × Option String :=
    (JobStatus.notstarted, some "task not available yet")
  let st :=
    if !(conditions.isNone && failed.isNone && succeeded.isNone) then
      let stA :=
        if optListTruthy conditions then
          match scan_conditions (conditions.getD []) with
          | some c => (JobStatus.finishedWithError, c.message)
          | none => st0
        else st0
      if stA.1 = JobStatus.notstarted then
        if completion_time.isSome && optNatTruthy succeeded then
          (JobStatus.finishedSuccessfully, some "finished")
        else if optNatTruthy job.status.active then
          (JobStatus.started, some "running")
        else
          (JobStatus.undefined, some "inactive")
      else stA
    else st0
  match job.containers with
  | [] => none
  | c :: _ =>
    some
      { name := job.name
        image := c.image
        cmd := String.intercalate " " c.command
        timestamp := ⟨match completion_time with
                      | some t => t.isoformat
                      | none => ""⟩
        message := st.2
        status := st.1 }

/-- `get_pod_log` of `openshiftmgr.py` (lines 165-174). The external call
`read_namespaced_pod_log` is modelled by `fetch`, which yields the pod's log
text or `none` when the call raises (the bare `except:` catches everything);
on failure the placeholder string naming the pod is returned instead. -/
def get_pod_log (fetch : String → Option String) (name : String) : String :=
  match fetch name with
  | some log => log
  | none => "Pod " ++ name ++ " is being created. Logs will appear shortly"

/-- `get_job_pod_logs` of `openshiftmgr.py` (lines 256-266): delegates to
`get_pod_log` for the pod. -/
def get_job_pod_logs (fetch : String → Option String) (pod_name _jid : String) :
    String :=
  get_pod_log fetch pod_name

/-- `get_job_logs` of `openshiftmgr.py` (lines 244-253): starting from the
empty string, appends each pod's log in the order `get_pod_names_in_job`
listed the pods (taken here as the parameter `pod_names`). -/
def get_job_logs (fetch : String → Option String) (jid : String)
    (pod_names : List String) : String :=
  pod_names.foldl (fun str_logs pod_name =>
    str_logs ++ get_job_pod_logs fetch pod_name jid) ""

/-- A Kubernetes API failure surfaced by the Python client as `ApiException`
with an HTTP status code. -/
inductive ApiError
  | apiException (status : Nat)
deriving DecidableEq, Repr

/-- The namespace's job store, the state the delete call acts on. -/
structure ClusterState where
  jobs : List String
deriving DecidableEq, Repr

/-- `V1DeleteOptions` as used by `remove_job`. -/
structure V1DeleteOptions where
  propagation_policy : String
deriving DecidableEq, Repr

/-- Modelled from the spec's external-interface section: the Kubernetes
`delete_namespaced_job` API call (an external collaborator, not repository
code). Deleting a present job removes it; deleting an absent job raises
`ApiException` with HTTP status 404, which the Python client surfaces as an
exception. -/
def delete_namespaced_job (st : ClusterState) (name : String)
    (_body : V1DeleteOptions) : Except ApiError ClusterState :=
  if name ∈ st.jobs then .ok ⟨st.jobs.erase name⟩
  else .error (.apiException 404)

/-- `remove_job` of `openshiftmgr.py` (lines 221-228): builds
`V1DeleteOptions(propagation_policy='Background')` and calls
`delete_namespaced_job` with no exception handling, so any `ApiException`
propagates to the caller. -/
def remove_job (st : ClusterState) (jobName : String) :
    Except ApiError ClusterState :=
  delete_namespaced_job st jobName ⟨"Background"⟩

/-! ## Helper lemmas -/

theorem scan_eq_find (l : List JobCondition) :
    scan_conditions l = l.find? failedCond := by
  induction l with
  | nil => rfl
  | cons c rest ih =>
    by_cases h : failedCond c = true
    · simp [scan_conditions, List.find?, h]
    · simp only [Bool.not_eq_true] at h
      simp [scan_conditions, List.find?, h, ih]

theorem scan_none_of_all (l : List JobCondition)
    (h : ∀ c ∈ l, failedCond c = false) : scan_conditions l = none := by
  induction l with
  | nil => rfl
  | cons c rest ih =>
    have hc := h c (by simp)
    simp only [scan_conditions, hc, Bool.false_eq_true, if_false]
    exact ih (fun d hd => h d (by simp [hd]))

/-! ## Claim theorems -/

/-- C6: whenever the condition list, the failed-pod count and the
succeeded-pod count are all absent, `get_job_info` resolves the status to
`NotStarted` with message "task not available yet", whatever the completion
timestamp and the active-pod count hold. -/
theorem C6_all_absent_notstarted (job : K8sJob)
    (hc : job.status.conditions = none)
    (hf : job.status.failed = none)
    (hs : job.status.succeeded = none)
    (info : JobInfo) (hinfo : get_job_info job = some info) :
    info.status = JobStatus.notstarted ∧
      info.message = some "task not available yet" := by
  obtain ⟨nm, conts, ⟨conds, fl, suc, ct, act⟩⟩ := job
  simp only [K8sJobStatus.conditions] at hc
  simp only [K8sJobStatus.failed] at hf
  simp only [K8sJobStatus.succeeded] at hs
  subst hc hf hs
  cases conts with
  | nil => simp [get_job_info] at hinfo
  | cons c0 rest =>
    simp only [get_job_info, Option.isNone_none, Bool.and_self, Bool.not_true,
      Bool.false_eq_true, if_false, Option.some.injEq] at hinfo
    subst hinfo
    exact ⟨rfl, rfl⟩

/-- C6 witness: a job with no conditions, no failed count, no succeeded
count, but a completion timestamp and three active pods, resolves to
`NotStarted` / "task not available yet". -/
theorem C6_all_absent_notstarted_witness :
    get_job_info ⟨"j", [⟨"img", ["run"]⟩],
        ⟨none, none, none, some ⟨"2024-01-01T00:00:00"⟩, some 3⟩⟩ =
      some ⟨"j", "img", "run", ⟨"2024-01-01T00:00:00"⟩,
        some "task not available yet", JobStatus.notstarted⟩ ∧
    (⟨"j", "img", "run", ⟨"2024-01-01T00:00:00"⟩,
        some "task not available yet", JobStatus.notstarted⟩ : JobInfo).status =
        JobStatus.notstarted ∧
      (⟨"j", "img", "run", ⟨"2024-01-01T00:00:00"⟩,
        some "task not available yet", JobStatus.notstarted⟩ : JobInfo).message =
        some "task not available yet" :=
  ⟨rfl, C6_all_absent_notstarted
    ⟨"j", [⟨"img", ["run"]⟩],
      ⟨none, none, none, some ⟨"2024-01-01T00:00:00"⟩, some 3⟩⟩
    rfl rfl rfl
    ⟨"j", "img", "run", ⟨"2024-01-01T00:00:00"⟩,
      some "task not available yet", JobStatus.notstarted⟩ rfl⟩

/-- C1: when the snapshot's condition list contains a condition of type
"Failed" with status "True", `get_job_info` resolves to `FinishedWithError`
with the first such condition's message, whatever the failed count,
succeeded count, completion timestamp and active count are — in particular
even when success signals are present in the same snapshot. -/
theorem C1_failed_condition_precedence (job : K8sJob) (cs : List JobCondition)
    (c : JobCondition)
    (hc : job.status.conditions = some cs)
    (hfind : cs.find? failedCond = some c)
    (info : JobInfo) (hinfo : get_job_info job = some info) :
    info.status = JobStatus.finishedWithError ∧ info.message = c.message := by
  obtain ⟨nm, conts, ⟨conds, fl, suc, ct, act⟩⟩ := job
  simp only [K8sJobStatus.conditions] at hc
  subst hc
  cases conts with
  | nil => simp [get_job_info] at hinfo
  | cons c0 rest =>
    cases cs with
    | nil => simp [List.find?] at hfind
    | cons a l =>
      have hscan : scan_conditions (a :: l) = some c := by
        rw [scan_eq_find]; exact hfind
      simp only [get_job_info, optListTruthy, hscan, Option.isNone_some,
        Bool.false_and, Bool.not_false, if_true, List.isEmpty_cons,
        Bool.not_false, Option.getD_some, Option.some.injEq] at hinfo
      subst hinfo
      exact ⟨rfl, rfl⟩

/-- C1 witness: a snapshot whose first condition is Failed/"True" with
message "boom", together with succeeded-count 1 and a completion timestamp,
still resolves to `FinishedWithError` / "boom". -/
theorem C1_failed_condition_precedence_witness :
    (([⟨"Failed", "True", some "boom"⟩] : List JobCondition).find? failedCond =
        some ⟨"Failed", "True", some "boom"⟩) ∧
    get_job_info ⟨"j", [⟨"img", ["run", "x"]⟩],
        ⟨some [⟨"Failed", "True", some "boom"⟩], some 1, some 1,
          some ⟨"2024-01-01T00:00:00"⟩, some 0⟩⟩ =
      some ⟨"j", "img", "run x", ⟨"2024-01-01T00:00:00"⟩, some "boom",
        JobStatus.finishedWithError⟩ ∧
    (⟨"j", "img", "run x", ⟨"2024-01-01T00:00:00"⟩, some "boom",
        JobStatus.finishedWithError⟩ : JobInfo).status =
      JobStatus.finishedWithError ∧
    (⟨"j", "img", "run x", ⟨"2024-01-01T00:00:00"⟩, some "boom",
        JobStatus.finishedWithError⟩ : JobInfo).message = some "boom" :=
  ⟨rfl, rfl, C1_failed_condition_precedence
    ⟨"j", [⟨"img", ["run", "x"]⟩],
      ⟨some [⟨"Failed", "True", some "boom"⟩], some 1, some 1,
        some ⟨"2024-01-01T00:00:00"⟩, some 0⟩⟩
    [⟨"Failed", "True", some "boom"⟩] ⟨"Failed", "True", some "boom"⟩
    rfl rfl
    ⟨"j", "img", "run x", ⟨"2024-01-01T00:00:00"⟩, some "boom",
      JobStatus.finishedWithError⟩ rfl⟩

/-- C7: with no Failed/"True" condition, a completion timestamp set and a
positive succeeded count, `get_job_info` resolves to `FinishedSuccessfully`
with message "finished" and carries the completion time's ISO-8601 string as
the `JobInfo` timestamp; and in general the timestamp is the empty string
whenever no completion time exists. -/
theorem C7_success_resolution (job : K8sJob) (t : KDateTime) (n : Nat)
    (hnofail : ∀ c ∈ job.status.conditions.getD [],
      ¬(c.type = "Failed" ∧ c.status = "True"))
    (ht : job.status.completion_time = some t)
    (hsuc : job.status.succeeded = some n) (hn : 0 < n)
    (info : JobInfo) (hinfo : get_job_info job = some info) :
    info.status = JobStatus.finishedSuccessfully ∧
      info.message = some "finished" ∧
      info.timestamp = ⟨t.isoformat⟩ ∧
      ∀ job2 info2, get_job_info job2 = some info2 →
        job2.status.completion_time = none → info2.timestamp = ⟨""⟩ := by
  have hgen : ∀ job2 info2, get_job_info job2 = some info2 →
      job2.status.completion_time = none → info2.timestamp = ⟨""⟩ := by
    intro job2 info2 h2 hct
    obtain ⟨nm2, conts2, ⟨conds2, fl2, suc2, ct2, act2⟩⟩ := job2
    simp only [K8sJobStatus.completion_time] at hct
    subst hct
    cases conts2 with
    | nil => simp [get_job_info] at h2
    | cons d rest2 =>
      simp only [get_job_info, Option.some.injEq] at h2
      subst h2
      rfl
  have hnf : ∀ c ∈ job.status.conditions.getD [], failedCond c = false := by
    intro c hm
    rcases Bool.eq_false_or_eq_true (failedCond c) with h | h
    · exact absurd (by simpa [failedCond] using h) (hnofail c hm)
    · exact h
  obtain ⟨nm, conts, ⟨conds, fl, suc, ct, act⟩⟩ := job
  simp only [K8sJobStatus.completion_time] at ht
  simp only [K8sJobStatus.succeeded] at hsuc
  simp only [K8sJobStatus.conditions] at hnf
  subst ht hsuc
  have hsuctruthy : optNatTruthy (some n) = true := by
    simp [optNatTruthy, Nat.pos_iff_ne_zero.mp hn]
  cases conts with
  | nil => simp [get_job_info] at hinfo
  | cons c0 rest =>
    cases conds with
    | none =>
      simp only [get_job_info, optListTruthy, Option.isNone_some,
        Option.isNone_none, Bool.true_and, Bool.and_false, Bool.not_false,
        if_true, Option.isSome_some, hsuctruthy, Bool.and_self,
        Option.some.injEq] at hinfo
      subst hinfo
      exact ⟨rfl, rfl, rfl, hgen⟩
    | some l =>
      cases l with
      | nil =>
        simp only [get_job_info, optListTruthy, Option.isNone_some,
          Bool.false_and, Bool.not_false, if_true, List.isEmpty_nil,
          Bool.not_true, Bool.false_eq_true, if_false, Option.isSome_some,
          hsuctruthy, Bool.and_self, Option.some.injEq] at hinfo
        subst hinfo
        exact ⟨rfl, rfl, rfl, hgen⟩
      | cons a ll =>
        have hscan : scan_conditions (a :: ll) = none :=
          scan_none_of_all _ (by simpa using hnf)
        simp only [get_job_info, optListTruthy, hscan, Option.isNone_some,
          Bool.false_and, Bool.not_false, if_true, List.isEmpty_cons,
          Bool.not_false, Option.getD_some, Option.isSome_some, hsuctruthy,
          Bool.and_self, Option.some.injEq] at hinfo
        subst hinfo
        exact ⟨rfl, rfl, rfl, hgen⟩

/-- C7 witness: one succeeded pod, a completion timestamp, no failure
condition: `FinishedSuccessfully` / "finished" with the ISO timestamp. -/
theorem C7_success_resolution_witness :
    (∀ c ∈ (some ([] : List JobCondition)).getD [],
      ¬(c.type = "Failed" ∧ c.status = "True")) ∧
    (0 : Nat) < 1 ∧
    get_job_info ⟨"j", [⟨"img", ["run"]⟩],
        ⟨some [], none, some 1, some ⟨"2024-01-01T00:00:00"⟩, some 0⟩⟩ =
      some ⟨"j", "img", "run", ⟨"2024-01-01T00:00:00"⟩, some "finished",
        JobStatus.finishedSuccessfully⟩ ∧
    (⟨"j", "img", "run", ⟨"2024-01-01T00:00:00"⟩, some "finished",
        JobStatus.finishedSuccessfully⟩ : JobInfo).status =
      JobStatus.finishedSuccessfully ∧
    (⟨"j", "img", "run", ⟨"2024-01-01T00:00:00"⟩, some "finished",
        JobStatus.finishedSuccessfully⟩ : JobInfo).message = some "finished" ∧
    (⟨"j", "img", "run", ⟨"2024-01-01T00:00:00"⟩, some "finished",
        JobStatus.finishedSuccessfully⟩ : JobInfo).timestamp =
      ⟨"2024-01-01T00:00:00"⟩ :=
  ⟨by simp, by decide, rfl,
    (C7_success_resolution
      ⟨"j", [⟨"img", ["run"]⟩],
        ⟨some [], none, some 1, some ⟨"2024-01-01T00:00:00"⟩, some 0⟩⟩
      ⟨"2024-01-01T00:00:00"⟩ 1 (by simp) rfl rfl (by decide)
      ⟨"j", "img", "run", ⟨"2024-01-01T00:00:00"⟩, some "finished",
        JobStatus.finishedSuccessfully⟩ rfl).1,
    (C7_success_resolution
      ⟨"j", [⟨"img", ["run"]⟩],
        ⟨some [], none, some 1, some ⟨"2024-01-01T00:00:00"⟩, some 0⟩⟩
      ⟨"2024-01-01T00:00:00"⟩ 1 (by simp) rfl rfl (by decide)
      ⟨"j", "img", "run", ⟨"2024-01-01T00:00:00"⟩, some "finished",
        JobStatus.finishedSuccessfully⟩ rfl).2.1,
    (C7_success_resolution
      ⟨"j", [⟨"img", ["run"]⟩],
        ⟨some [], none, some 1, some ⟨"2024-01-01T00:00:00"⟩, some 0⟩⟩
      ⟨"2024-01-01T00:00:00"⟩ 1 (by simp) rfl rfl (by decide)
      ⟨"j", "img", "run", ⟨"2024-01-01T00:00:00"⟩, some "finished",
        JobStatus.finishedSuccessfully⟩ rfl).2.2.1⟩

/-- C2: with a positive gpu limit, the built manifest has exactly one
container, whose resource limits hold exactly the single entry
nvidia.com/gpu mapped to the gpu limit (so no CPU or memory limit entries),
whose requests dict has been emptied, and whose security context disallows
privilege escalation, drops all capabilities and sets the
nvidia_container_t SELinux type; with one container in the list there is no
other container for the override to touch. -/
theorem C2_gpu_override (image command name : String) (rd : ResourceDict)
    (share_dir : String) (tokens : List String)
    (hs : shlexSplit (pyReplace command "/share" share_dir) = .ok tokens)
    (g : Int) (hg : pyInt? rd.gpu_limit = some g) (hpos : 0 < g) :
    ∃ m, schedule_job image command name rd share_dir = .ok m ∧
      ∃ c, m.spec.template.spec.containers = [c] ∧
        c.resources.limits = [("nvidia.com/gpu", PyVal.int g)] ∧
        (∀ kv ∈ c.resources.limits, kv.1 = "nvidia.com/gpu") ∧
        c.resources.requests = [] ∧
        c.securityContext =
          some ⟨false, ⟨["ALL"]⟩, ⟨"nvidia_container_t"⟩⟩ := by
  simp only [schedule_job, schedule_job_events, hs, hg]
  rw [if_pos (show g > 0 from hpos)]
  exact ⟨_, rfl, _, rfl, rfl, by simp, rfl, rfl⟩

/-- C2 witness: gpu limit "1" yields the GPU-only limits, emptied requests
and the hardened security context. -/
theorem C2_gpu_override_witness :
    ∃ m, schedule_job "img" "run" "job1" ⟨2, 512, 1000, "1"⟩ "/data" = .ok m ∧
      ∃ c, m.spec.template.spec.containers = [c] ∧
        c.resources.limits = [("nvidia.com/gpu", PyVal.int 1)] ∧
        (∀ kv ∈ c.resources.limits, kv.1 = "nvidia.com/gpu") ∧
        c.resources.requests = [] ∧
        c.securityContext =
          some ⟨false, ⟨["ALL"]⟩, ⟨"nvidia_container_t"⟩⟩ :=
  C2_gpu_override "img" "run" "job1" ⟨2, 512, 1000, "1"⟩ "/data" ["run"]
    rfl 1 rfl (by decide)

/-- C3: with gpu limit 0, the built manifest has exactly one container whose
limits are the requested memory with suffix "Mi" and CPU with suffix "m",
whose resources mention no GPU key anywhere, and whose requests are the
fixed floor of 150Mi memory and 250m CPU, independent of the requested
limits. -/
theorem C3_cpu_memory_limits (image command name : String) (rd : ResourceDict)
    (share_dir : String) (tokens : List String)
    (hs : shlexSplit (pyReplace command "/share" share_dir) = .ok tokens)
    (hz : pyInt? rd.gpu_limit = some 0) :
    ∃ m, schedule_job image command name rd share_dir = .ok m ∧
      ∃ c, m.spec.template.spec.containers = [c] ∧
        c.resources.limits =
          [("memory", PyVal.str (toString rd.memory_limit ++ "Mi")),
           ("cpu", PyVal.str (toString rd.cpu_limit ++ "m"))] ∧
        (∀ kv ∈ c.resources.limits, kv.1 ≠ "nvidia.com/gpu") ∧
        (∀ kv ∈ c.resources.requests, kv.1 ≠ "nvidia.com/gpu") ∧
        c.resources.requests =
          [("memory", PyVal.str "150Mi"), ("cpu", PyVal.str "250m")] := by
  simp only [schedule_job, schedule_job_events, hs, hz]
  rw [if_neg (show ¬ (0 : Int) > 0 by decide)]
  exact ⟨_, rfl, _, rfl, rfl, by simp, by simp, rfl⟩

/-- C3 witness: gpu limit "0" with 512 MiB memory and 1000 milli-CPU yields
limits 512Mi / 1000m, no GPU key, and the fixed 150Mi / 250m requests. -/
theorem C3_cpu_memory_limits_witness :
    ∃ m, schedule_job "img" "run" "job1" ⟨2, 512, 1000, "0"⟩ "/data" = .ok m ∧
      ∃ c, m.spec.template.spec.containers = [c] ∧
        c.resources.limits =
          [("memory", PyVal.str (toString (512 : Nat) ++ "Mi")),
           ("cpu", PyVal.str (toString (1000 : Nat) ++ "m"))] ∧
        (∀ kv ∈ c.resources.limits, kv.1 ≠ "nvidia.com/gpu") ∧
        (∀ kv ∈ c.resources.requests, kv.1 ≠ "nvidia.com/gpu") ∧
        c.resources.requests =
          [("memory", PyVal.str "150Mi"), ("cpu", PyVal.str "250m")] :=
  C3_cpu_memory_limits "img" "run" "job1" ⟨2, 512, 1000, "0"⟩ "/data" ["run"]
    rfl rfl

/-- C10: in the gpu-positive branch everything about the primary container
other than `resources` and `securityContext` matches the gpu-0 build of the
same request: the env vars still carry the originally requested worker
count, CPU limit with suffix "m" and memory limit with suffix "Mi", the
volume mounts, name, image, command and pull settings coincide, and so do
the manifests' pod-level volumes. -/
theorem C10_gpu_branch_frame (image command name : String) (rd : ResourceDict)
    (share_dir : String) (tokens : List String)
    (hs : shlexSplit (pyReplace command "/share" share_dir) = .ok tokens)
    (g : Int) (hg : pyInt? rd.gpu_limit = some g) (hpos : 0 < g) :
    ∃ m m0 c c0,
      schedule_job image command name rd share_dir = .ok m ∧
      schedule_job image command name
        { rd with gpu_limit := "0" } share_dir = .ok m0 ∧
      m.spec.template.spec.containers = [c] ∧
      m0.spec.template.spec.containers = [c0] ∧
      c.env = [⟨"NUMBER_OF_WORKERS", toString rd.number_of_workers⟩,
               ⟨"CPU_LIMIT", toString rd.cpu_limit ++ "m"⟩,
               ⟨"MEMORY_LIMIT", toString rd.memory_limit ++ "Mi"⟩] ∧
      c.env = c0.env ∧
      c.volumeMounts = c0.volumeMounts ∧
      c.name = c0.name ∧
      c.image = c0.image ∧
      c.command = c0.command ∧
      c.imagePullSecrets = c0.imagePullSecrets ∧
      c.imagePullPolicy = c0.imagePullPolicy ∧
      m.spec.template.spec.volumes = m0.spec.template.spec.volumes ∧
      m.metadataName = m0.metadataName ∧
      m.spec.parallelism = m0.spec.parallelism ∧
      m.spec.completions = m0.spec.completions := by
  simp only [schedule_job, schedule_job_events, hs, hg]
  rw [if_pos (show g > 0 from hpos)]
  have h0 : pyInt? ("0" : String) = some 0 := rfl
  simp only [h0]
  rw [if_neg (show ¬ (0 : Int) > 0 by decide)]
  exact ⟨_, _, _, _, rfl, rfl, rfl, rfl, rfl, rfl, rfl, rfl, rfl, rfl, rfl,
    rfl, rfl, rfl, rfl, rfl⟩

/-- C10 witness: the gpu-2 build of a concrete request agrees with its gpu-0
build on everything but resources and security context. -/
theorem C10_gpu_branch_frame_witness :
    ∃ m m0 c c0,
      schedule_job "img" "run" "job1" ⟨3, 512, 1000, "2"⟩ "/data" = .ok m ∧
      schedule_job "img" "run" "job1" ⟨3, 512, 1000, "0"⟩ "/data" = .ok m0 ∧
      m.spec.template.spec.containers = [c] ∧
      m0.spec.template.spec.containers = [c0] ∧
      c.env = [⟨"NUMBER_OF_WORKERS", toString (3 : Nat)⟩,
               ⟨"CPU_LIMIT", toString (1000 : Nat) ++ "m"⟩,
               ⟨"MEMORY_LIMIT", toString (512 : Nat) ++ "Mi"⟩] ∧
      c.env = c0.env ∧
      c.volumeMounts = c0.volumeMounts ∧
      c.name = c0.name ∧
      c.image = c0.image ∧
      c.command = c0.command ∧
      c.imagePullSecrets = c0.imagePullSecrets ∧
      c.imagePullPolicy = c0.imagePullPolicy ∧
      m.spec.template.spec.volumes = m0.spec.template.spec.volumes ∧
      m.metadataName = m0.metadataName ∧
      m.spec.parallelism = m0.spec.parallelism ∧
      m.spec.completions = m0.spec.completions :=
  C10_gpu_branch_frame "img" "run" "job1" ⟨3, 512, 1000, "2"⟩ "/data" ["run"]
    rfl 2 rfl (by decide)

/-- C8: the manifest's command tokens come from shell-style tokenization of
the command string after the "/share" substitution (substitution first,
then tokenization, quoting preserved); concretely the command
run --path (single-quoted /share/incoming/x) with substitution
/share to /data stores exactly the tokens run, --path, /data/incoming/x. -/
theorem C8_substitute_then_tokenize (image command name : String)
    (rd : ResourceDict) (share_dir : String) (tokens : List String)
    (hs : shlexSplit (pyReplace command "/share" share_dir) = .ok tokens)
    (g : Int) (hg : pyInt? rd.gpu_limit = some g) :
    (builtPrimary (schedule_job image command name rd share_dir)).map
        (fun c => c.command) = some tokens ∧
    (builtPrimary (schedule_job "img"
        ("run --path " ++ sq ++ "/share/incoming/x" ++ sq) "job1"
        ⟨2, 512, 1000, "0"⟩ "/data")).map (fun c => c.command) =
      some ["run", "--path", "/data/incoming/x"] := by
  refine ⟨?_, rfl⟩
  simp only [schedule_job, schedule_job_events, hs, hg]
  by_cases hpos : g > 0
  · rw [if_pos hpos]; rfl
  · rw [if_neg hpos]; rfl

/-- C8 witness: the theorem applied at the concrete quoted command. -/
theorem C8_substitute_then_tokenize_witness :
    (builtPrimary (schedule_job "img"
        ("run --path " ++ sq ++ "/share/incoming/x" ++ sq) "job1"
        ⟨2, 512, 1000, "0"⟩ "/data")).map (fun c => c.command) =
      some ["run", "--path", "/data/incoming/x"] :=
  (C8_substitute_then_tokenize "img"
    ("run --path " ++ sq ++ "/share/incoming/x" ++ sq) "job1"
    ⟨2, 512, 1000, "0"⟩ "/data" ["run", "--path", "/data/incoming/x"]
    rfl 0 rfl).1

/-- C4 counterexample: on the non-numeric gpu value "banana" the build does
raise a ValueError, but its event trace records the int() cast attempt — so
the error is not raised before a numeric cast of the gpu value is
attempted, refuting that part of the claim. -/
theorem C4_cast_error_counterexample :
    schedule_job_events "img" "run" "job1" ⟨1, 512, 1000, "banana"⟩ "/data" =
      ([.shareSubstituted, .commandTokenized, .gpuCastAttempted],
       .error (.valueError "invalid literal for int() with base 10: banana")) ∧
    ¬ BuildEvent.gpuCastAttempted ∉
        (schedule_job_events "img" "run" "job1"
          ⟨1, 512, 1000, "banana"⟩ "/data").1 :=
  ⟨rfl, by decide⟩

/-- C4 amended: a non-numeric gpu value makes the build raise a ValueError
(the spec's ValidationError), raised at the int() cast itself — after the
"/share" substitution and the command tokenization — and before any API
call, since the build never returns a manifest to submit. -/
theorem C4_cast_error_amended (image command name : String)
    (rd : ResourceDict) (share_dir : String) (tokens : List String)
    (hs : shlexSplit (pyReplace command "/share" share_dir) = .ok tokens)
    (hbad : pyInt? rd.gpu_limit = none) :
    schedule_job_events image command name rd share_dir =
      ([.shareSubstituted, .commandTokenized, .gpuCastAttempted],
       .error (.valueError
         ("invalid literal for int() with base 10: " ++ rd.gpu_limit))) := by
  simp only [schedule_job_events, hs, hbad]
  rfl

/-- C4 witness: the amended theorem at gpu value "banana". -/
theorem C4_cast_error_amended_witness :
    schedule_job_events "img" "run" "job1" ⟨1, 512, 1000, "banana"⟩ "/data" =
      ([.shareSubstituted, .commandTokenized, .gpuCastAttempted],
       .error (.valueError "invalid literal for int() with base 10: banana")) :=
  C4_cast_error_amended "img" "run" "job1" ⟨1, 512, 1000, "banana"⟩ "/data"
    ["run"] rfl rfl

/-- C5 counterexample: removing "job1" from a namespace holding it succeeds
and leaves the namespace empty; the second `remove_job` on the same name
then raises ApiException 404 instead of being a no-op success. -/
theorem C5_remove_twice_counterexample :
    remove_job ⟨["job1"]⟩ "job1" = .ok ⟨[]⟩ ∧
    remove_job ⟨[]⟩ "job1" = .error (.apiException 404) := by
  constructor
  · simp [remove_job, delete_namespaced_job]
  · simp [remove_job, delete_namespaced_job]

/-- C5 amended: `remove_job` issues the delete with the Background
propagation policy and no exception handling, so deleting an absent job
propagates the orchestrator's not-found error to the caller rather than
succeeding as a no-op. -/
theorem C5_remove_absent_propagates (st : ClusterState) (name : String)
    (h : name ∉ st.jobs) :
    remove_job st name = .error (.apiException 404) := by
  simp [remove_job, delete_namespaced_job, h]

/-- C5 witness: the amended theorem on the empty namespace. -/
theorem C5_remove_absent_propagates_witness :
    ("job1" ∉ (⟨[]⟩ : ClusterState).jobs) ∧
    remove_job ⟨[]⟩ "job1" = .error (.apiException 404) :=
  ⟨by simp, C5_remove_absent_propagates ⟨[]⟩ "job1" (by simp)⟩

theorem str_append_assoc (a b c : String) : a ++ b ++ c = a ++ (b ++ c) := by
  cases a; cases b; cases c
  exact congrArg String.mk (List.append_assoc _ _ _)

theorem str_append_empty (s : String) : s ++ "" = s := by
  cases s
  exact congrArg String.mk (List.append_nil _)

theorem join_cons (a : String) (l : List String) :
    String.join (a :: l) = a ++ String.join l := by
  rw [String.join_eq, String.join_eq]
  cases a
  rfl

/-- Concatenating from a seed with `List.foldl` is the seed followed by the
joined mapped logs. -/
theorem foldl_append_join (f : String → String) (l : List String) (s : String) :
    l.foldl (fun acc p => acc ++ f p) s = s ++ String.join (l.map f) := by
  induction l generalizing s with
  | nil =>
    rw [List.map_nil, show String.join ([] : List String) = "" from rfl,
      str_append_empty]
    rfl
  | cons p rest ih =>
    rw [List.foldl_cons, ih (s ++ f p), List.map_cons, join_cons,
      str_append_assoc]

/-- C9: `get_job_logs` is the separator-free concatenation, in listing
order, of each pod's log, a failed fetch contributing the placeholder that
names the pod; concretely, with pod1 yielding "LOG1" and pod2 failing, the
result is "LOG1" followed by pod2's placeholder. -/
theorem C9_log_aggregation (fetch : String → Option String) (jid : String)
    (pods : List String) :
    get_job_logs fetch jid pods =
      String.join (pods.map (fun p =>
        match fetch p with
        | some log => log
        | none =>
            "Pod " ++ p ++ " is being created. Logs will appear shortly")) ∧
    get_job_logs (fun p => if p = "pod1" then some "LOG1" else none) "j"
        ["pod1", "pod2"] =
      "LOG1" ++ "Pod pod2 is being created. Logs will appear shortly" := by
  constructor
  · rw [get_job_logs, foldl_append_join (fun p => get_job_pod_logs fetch p jid)]
    simp only [String.join, get_job_pod_logs, get_pod_log]
    congr 1
  · rfl

end Pman
